import Mathlib

/-!
Verification of the cache / fallback core of the fin-path-insight backend.

The definitions below are a shallow embedding of the Python source:
- app/utils/supabase_cache.py  (Cache Manager over the Supabase REST store)
- app/utils/fmp_client.py      (rate limiting, backoff, batching, fallback fetch)

Remote I/O is modelled by an explicit store value together with per-operation
failure flags: a flag set to some error means that call of the backing store
raises that error.  Machine time is modelled with integers (seconds) for the
cache TTL logic and with rationals for the rate-limit window, matching the
float timestamps of the source.
-/

namespace FinPath

/-- JSON-like values, the payloads moved through the cache and the fetchers. -/
inductive JVal where
  | null
  | bool (b : Bool)
  | num (n : Int)
  | str (s : String)
  | arr (xs : List JVal)
  | obj (fields : List (String × JVal))

/-- One row of the public.cache table: key TEXT PRIMARY KEY, value JSONB,
created_at TIMESTAMPTZ.  A created_at of none models a row whose
created_at field is missing. -/
structure Row where
  key : String
  value : JVal
  created_at : Option Int

abbrev Table := List Row

/-- Errors raised by the backing store.  tableMissing is an error whose
message contains "does not exist" or "not found"; serviceDown is any
other failure. -/
inductive StoreErr where
  | tableMissing
  | serviceDown
  deriving DecidableEq

/-- The substring test on the error message performed by
ensure_cache_table_exists (lines 58-59 of supabase_cache.py). -/
def errSaysMissing : StoreErr → Bool
  | .tableMissing => true
  | .serviceDown => false

/-- The remote cache store together with failure flags: a flag of some e
means every call of that operation raises e. -/
structure Store where
  table : Table
  failSelect : Option StoreErr
  failInsert : Option StoreErr
  failDelete : Option StoreErr
  failExec : Option StoreErr

/-- supabase.select("cache", "*", \x7b"key": eq.k\x7d, 1): the rows whose key
matches, limited to one row. -/
def Store.selectKey (s : Store) (k : String) : Except StoreErr (List Row) :=
  match s.failSelect with
  | some e => .error e
  | none => .ok ((s.table.filter (fun r => r.key == k)).take 1)

/-- supabase.select("cache", "key", None, 1): the probe query used by
ensure_cache_table_exists. -/
def Store.selectProbe (s : Store) : Except StoreErr (List Row) :=
  match s.failSelect with
  | some e => .error e
  | none => .ok (s.table.take 1)

/-- supabase.delete("cache", \x7b"key": eq.k\x7d): removes every row with the
given key. -/
def Store.deleteKey (s : Store) (k : String) : Except StoreErr Store :=
  match s.failDelete with
  | some e => .error e
  | none => .ok { s with table := s.table.filter (fun r => r.key != k) }

/-- supabase.insert("cache", row): appends the row; the Bool is the
truthiness of the returned representation (bool(result) in the source). -/
def Store.insertRow (s : Store) (r : Row) : Except StoreErr (Store × Bool) :=
  match s.failInsert with
  | some e => .error e
  | none => .ok ({ s with table := s.table ++ [r] }, true)

/-- supabase.execute_query(create_table_sql): runs the CREATE TABLE IF NOT
EXISTS statement; modelled as leaving the rows unchanged. -/
def Store.execQuery (s : Store) : Except StoreErr Unit :=
  match s.failExec with
  | some _e => .error _e
  | none => .ok ()

/-- ensure_cache_table_exists (supabase_cache.py lines 12-74): probes the
table; on an error whose message says the table is missing it attempts the
raw CREATE TABLE query; any other error yields false. -/
def ensure_cache_table_exists (s : Store) : Bool :=
  match s.selectProbe with
  | .ok _ => true
  | .error e =>
    if errSaysMissing e then
      match s.execQuery with
      | .ok _ => true
      | .error _ => false
    else false

/-- get_cached_data (supabase_cache.py lines 76-135).  now and ttl are the
current UTC time and settings.SUPABASE_TTL_CACHE, in seconds.  Returns the
cached value (if fresh) and the store state after the call; every store
error is caught inside the function, so the result is a plain pair. -/
def get_cached_data (s : Store) (key : String) (now ttl : Int) :
    Option JVal × Store :=
  if ensure_cache_table_exists s then
    match s.selectKey key with
    | .error _ => (none, s)
    | .ok rows =>
      match rows with
      | [] => (none, s)
      | item :: _ =>
        match item.created_at with
        | none => (none, s)
        | some t =>
          if now - t < ttl then
            (some item.value, s)
          else
            match s.deleteKey key with
            | .ok s2 => (none, s2)
            | .error _ => (none, s)
  else (none, s)

/-- set_cached_data (supabase_cache.py lines 137-180).  The ttl argument is
accepted but never used, exactly as in the source; created_at is assigned by
the store at write time (modelled as now).  The delete of any existing entry
is best-effort: its error is swallowed and the insert still runs. -/
def set_cached_data (s : Store) (key : String) (data : JVal)
    (ttl : Option Int) (now : Int) : Bool × Store :=
  if ensure_cache_table_exists s then
    let s1 :=
      match s.deleteKey key with
      | .ok s' => s'
      | .error _ => s
    match s1.insertRow { key := key, value := data, created_at := some now } with
    | .ok (s2, truthy) => (truthy, s2)
    | .error _ => (false, s1)
  else (false, s)

/-- delete_cached_data (supabase_cache.py lines 182-204). -/
def delete_cached_data (s : Store) (key : String) : Bool × Store :=
  if ensure_cache_table_exists s then
    match s.deleteKey key with
    | .ok s2 => (true, s2)
    | .error _ => (false, s)
  else (false, s)

/-- One Cache Manager operation, for stating properties of operation
sequences. -/
inductive CacheOp where
  | get (key : String) (now ttl : Int)
  | set (key : String) (data : JVal) (ttl : Option Int) (now : Int)
  | del (key : String)

/-- The caller-visible result of one Cache Manager operation. -/
inductive CacheRes where
  | got (v : Option JVal)
  | done (b : Bool)

/-- Run one operation against the store. -/
def runOp (s : Store) : CacheOp → CacheRes × Store
  | .get k now ttl =>
    let (v, s') := get_cached_data s k now ttl
    (.got v, s')
  | .set k d t now =>
    let (b, s') := set_cached_data s k d t now
    (.done b, s')
  | .del k =>
    let (b, s') := delete_cached_data s k
    (.done b, s')

/-- Run a sequence of operations, threading the store state. -/
def runOps (s : Store) : List CacheOp → List CacheRes × Store
  | [] => ([], s)
  | op :: rest =>
    let (r, s') := runOp s op
    let (rs, s'') := runOps s' rest
    (r :: rs, s'')

/-- The fail-closed result of each operation when the store is down:
get yields absent, set and delete yield false. -/
def failClosedResult : CacheOp → CacheRes
  | .get _ _ _ => .got none
  | .set _ _ _ _ => .done false
  | .del _ => .done false

/-! ## fmp_client.py: rate limiting, backoff, batching, fallback fetch -/

/-- Substring containment on character lists, used to model the Python
membership test pat in msg. -/
def listContains (pat : List Char) : List Char → Bool
  | [] => pat.isEmpty
  | c :: t => pat.isPrefixOf (c :: t) || listContains pat t

/-- Substring containment on strings: Python pat in hay. -/
def strContains (hay pat : String) : Bool :=
  listContains pat.toList hay.toList

/-- The rate-limit detection of perform_yahoo_request (fmp_client.py line
83): "429" in str(e) or "Too Many Requests" in str(e). -/
def isRateLimitMsg (msg : String) : Bool :=
  strContains msg "429" || strContains msg "Too Many Requests"

/-- max_retries = 5 (fmp_client.py line 62). -/
def max_retries : Nat := 5

/-- base_delay = 2 seconds (fmp_client.py line 63). -/
def base_delay : ℚ := 2

/-- The backoff delay computed at fmp_client.py line 85:
base_delay * (2 ** attempt) + jitter, where jitter is random.random() * 0.5. -/
def backoff_delay (attempt : Nat) (jitter : ℚ) : ℚ :=
  base_delay * 2 ^ attempt + jitter

/-- Outcome of one upstream call: the function returns a value or raises an
exception carrying a message. -/
inductive CallResult where
  | ok (v : JVal)
  | exn (msg : String)

/-- Errors raised by perform_yahoo_request to its caller: either the
exception of the final attempt is re-raised, or the distinguished
exhausted-retries error of line 99 is raised. -/
inductive YError where
  | fromCall (msg : String)
  | exhaustedRateLimit
  deriving DecidableEq

/-- The retry loop of perform_yahoo_request (fmp_client.py lines 65-99).
calls is indexed by global attempt number; remaining is the number of loop
iterations left (attempt + remaining = max_retries on entry).  Returns the
result together with the number of upstream invocations made.  Sleeps are
elided: they do not affect the result or the call count. -/
def perform_yahoo_go (calls : Nat → CallResult) (attempt remaining : Nat) :
    Except YError JVal × Nat :=
  match remaining with
  | 0 => (.error .exhaustedRateLimit, 0)
  | r + 1 =>
    match calls attempt with
    | .ok v => (.ok v, 1)
    | .exn msg =>
      if isRateLimitMsg msg then
        let p := perform_yahoo_go calls (attempt + 1) r
        (p.1, p.2 + 1)
      else if attempt < max_retries - 1 then
        let p := perform_yahoo_go calls (attempt + 1) r
        (p.1, p.2 + 1)
      else
        (.error (.fromCall msg), 1)

/-- perform_yahoo_request (fmp_client.py lines 50-99): run the retry loop
from attempt 0 with max_retries iterations available. -/
def perform_yahoo_request (calls : Nat → CallResult) : Except YError JVal × Nat :=
  perform_yahoo_go calls 0 max_retries

/-- YAHOO_RATE_LIMIT_WINDOW = 60 seconds (fmp_client.py line 13). -/
def YAHOO_RATE_LIMIT_WINDOW : ℚ := 60

/-- YAHOO_MAX_REQUESTS = 5 (fmp_client.py line 14). -/
def YAHOO_MAX_REQUESTS : Nat := 5

/-- Python min(list) as a fold; the empty default is never consulted because
the source only takes min of a list it has just checked to be of length at
least YAHOO_MAX_REQUESTS. -/
def listMin : List ℚ → ℚ
  | [] => 0
  | h :: t => t.foldl min h

/-- Result of check_rate_limit: the new window contents and the returned
pair (can_proceed, wait_time). -/
structure RateCheck where
  timestamps : List ℚ
  can_proceed : Bool
  wait_time : ℚ

/-- check_rate_limit (fmp_client.py lines 28-48): prune timestamps older
than the window, then decide capacity from the pruned list. -/
def check_rate_limit (prev : List ℚ) (current_time : ℚ) : RateCheck :=
  let pruned := prev.filter (fun ts => current_time - ts < YAHOO_RATE_LIMIT_WINDOW)
  if YAHOO_MAX_REQUESTS ≤ pruned.length then
    let oldest := listMin pruned
    { timestamps := pruned
      can_proceed := false
      wait_time := max 0 (YAHOO_RATE_LIMIT_WINDOW - (current_time - oldest)) }
  else
    { timestamps := pruned, can_proceed := true, wait_time := 0 }

/-- asyncio.gather over one batch: evaluates every per-item call and
collects the results in input order; if any call raises, the batch raises. -/
def gatherE {α β : Type} (f : α → Except String β) : List α → Except String (List β)
  | [] => .ok []
  | x :: xs =>
    match f x with
    | .error e => .error e
    | .ok r =>
      match gatherE f xs with
      | .error e => .error e
      | .ok rs => .ok (r :: rs)

/-- The batch loop of batch_process (fmp_client.py lines 113-125): for i in
range(0, len(items), batch_size), gather the batch items[i:i+batch_size] and
extend the result list.  The inter-batch sleep is elided: it does not affect
the returned list. -/
def batch_process_go {α β : Type} (items : List α) (f : α → Except String β)
    (batch_size i : Nat) : Except String (List β) :=
  if h : 0 < batch_size ∧ i < items.length then
    match gatherE f ((items.drop i).take batch_size) with
    | .error e => .error e
    | .ok batch_results =>
      match batch_process_go items f batch_size (i + batch_size) with
      | .error e => .error e
      | .ok rest => .ok (batch_results ++ rest)
  else .ok []
termination_by items.length - i
decreasing_by omega

/-- batch_process (fmp_client.py lines 101-125). -/
def batch_process {α β : Type} (items : List α) (f : α → Except String β)
    (batch_size : Nat) : Except String (List β) :=
  batch_process_go items f batch_size 0

/-! ### fetch_stock_data (fmp_client.py lines 127-195) -/

/-- Python dict.get(k, default) on a field list. -/
def dictGet (fields : List (String × JVal)) (k : String) (dflt : JVal) : JVal :=
  match fields.find? (fun p => p.1 == k) with
  | some p => p.2
  | none => dflt

/-- Python float(x) / int(x) on a JSON value: numbers and booleans convert,
anything else raises.  (Numeric strings, which Python would also convert,
do not occur in the payload shapes modelled here.) -/
def pyNum : JVal → Except String Int
  | .num n => .ok n
  | .bool b => .ok (if b then 1 else 0)
  | _ => .error "could not convert to number"

/-- Python attribute access x.get(...) requires x to be a dict; anything
else raises. -/
def dictFields : JVal → Except String (List (String × JVal))
  | .obj fs => .ok fs
  | _ => .error "object has no attribute get"

/-- The empty dict returned by fetch_stock_data when its outer except
handler fires. -/
def emptyDict : JVal := .obj []

/-- The upstream behaviour seen by one fetch_stock_data call.  primary is
the FMP HTTP call: it either raises (transport error) or yields a status
code together with the outcome of response.json(); yfinance is the
yf.Ticker(symbol).info access, which yields a field dict or raises. -/
structure StockFetchEnv where
  primary : Except String (Nat × Except String (List JVal))
  yfinance : Except String (List (String × JVal))

/-- The result dict built from the first FMP quote (fmp_client.py lines
161-168); the float()/int() conversions may raise. -/
def build_fmp_result (symbol : String) (quote : JVal) (now : Int) :
    Except String JVal :=
  match dictFields quote with
  | .error e => .error e
  | .ok q =>
    match pyNum (dictGet q "price" (.num 0)) with
    | .error e => .error e
    | .ok price =>
      match pyNum (dictGet q "change" (.num 0)) with
      | .error e => .error e
      | .ok change =>
        match pyNum (dictGet q "changesPercentage" (.num 0)) with
        | .error e => .error e
        | .ok cp =>
          match pyNum (dictGet q "volume" (.num 0)) with
          | .error e => .error e
          | .ok vol =>
            .ok (.obj [("symbol", .str symbol), ("price", .num price),
                       ("change", .num change), ("change_percent", .num cp),
                       ("volume", .num vol), ("timestamp", .num now)])

/-- The result dict built from the yfinance info dict (fmp_client.py lines
180-187); plain .get calls, no numeric conversion. -/
def build_yf_result (symbol : String) (info : List (String × JVal)) (now : Int) : JVal :=
  .obj [("symbol", .str symbol),
        ("price", dictGet info "currentPrice" (dictGet info "regularMarketPrice" (.num 0))),
        ("change", dictGet info "regularMarketChange" (.num 0)),
        ("change_percent", dictGet info "regularMarketChangePercent" (.num 0)),
        ("volume", dictGet info "regularMarketVolume" (.num 0)),
        ("timestamp", .num now)]

/-- The caller-visible outcome of fetch_stock_data: the returned value, a
flag recording whether the yfinance fallback was invoked, and the
api_cache entry for this symbol after the call. -/
structure FetchResult where
  value : JVal
  yfinance_called : Bool
  cache : Option (Int × JVal)

/-- The yfinance fallback path (fmp_client.py lines 176-192): invoke
yfinance; on success cache and return the built result; if it raises, the
outer except handler returns the empty dict. -/
def fetch_yf_fallback (symbol : String) (cache : Option (Int × JVal))
    (now : Int) (env : StockFetchEnv) : FetchResult :=
  match env.yfinance with
  | .ok info =>
    let r := build_yf_result symbol info now
    ⟨r, true, some (now, r)⟩
  | .error _ => ⟨emptyDict, true, cache⟩

/-- The body of the try block of fetch_stock_data (fmp_client.py lines
146-195), entered on a cache miss.  Any exception of the primary call, of
response.json(), or of the result construction reaches the outer except
handler, which returns the empty dict without invoking yfinance; the
yfinance fallback runs only when the primary response has a non-200 status
or a parsed body of length zero. -/
def fetch_stock_data_go (symbol : String) (cache : Option (Int × JVal))
    (now : Int) (env : StockFetchEnv) : FetchResult :=
  match env.primary with
  | .error _ => ⟨emptyDict, false, cache⟩
  | .ok (status, bodyRes) =>
    if status == 200 then
      match bodyRes with
      | .error _ => ⟨emptyDict, false, cache⟩
      | .ok data =>
        match data with
        | [] => fetch_yf_fallback symbol cache now env
        | quote :: _ =>
          match build_fmp_result symbol quote now with
          | .ok r => ⟨r, false, some (now, r)⟩
          | .error _ => ⟨emptyDict, false, cache⟩
    else fetch_yf_fallback symbol cache now env

/-- fetch_stock_data (fmp_client.py lines 127-195): serve from api_cache if
the entry is younger than 15 minutes (900 seconds), else run the fetch. -/
def fetch_stock_data (symbol : String) (cache : Option (Int × JVal))
    (now : Int) (env : StockFetchEnv) : FetchResult :=
  match cache with
  | some (ctime, cval) =>
    if now - ctime < 900 then ⟨cval, false, cache⟩
    else fetch_stock_data_go symbol cache now env
  | none => fetch_stock_data_go symbol cache now env

/-! ### fetch_indian_market_overview (fmp_client.py lines 494-620) -/

/-- One entry of the indian_indices list (fmp_client.py lines 505-512). -/
structure IndexSpec where
  symbol : String
  name : String
  fallback_symbol : String

/-- The six Indian indices fetched by the overview (fmp_client.py lines
505-512). -/
def indian_indices : List IndexSpec :=
  [⟨"^NSEI", "NIFTY 50", "NSEI"⟩,
   ⟨"^NSEBANK", "NIFTY BANK", "NSEBANK"⟩,
   ⟨"^CNXIT", "NIFTY IT", "CNXIT"⟩,
   ⟨"^NSMIDCP", "NIFTY MIDCAP", "NSMIDCP"⟩,
   ⟨"^INDIAVIX", "INDIA VIX", "INDIAVIX"⟩,
   ⟨"^BSESN", "SENSEX", "BSESN"⟩]

/-- The upstream behaviour seen by fetch_indian_market_overview.  attempt
gives, per index and per attempt number, the value obtained by that
attempt of the body of the retry loop (some v when FMP or yfinance
produced a result dict, none when every source failed that attempt);
breadth is the outcome of fetch_market_breadth; processIndexSem stands for
the process_index closure referenced by the dead code after the
unconditional raise. -/
structure OverviewEnv where
  attempt : IndexSpec → Nat → Option JVal
  breadth : Except String JVal
  processIndexSem : IndexSpec → Except String JVal

/-- The retry loop of process_index (fmp_client.py lines 521-595): up to
fuel attempts, returning the first attempt that produces a value. -/
def process_index_attempts (oracle : Nat → Option JVal) (attempt fuel : Nat) :
    Option JVal :=
  match fuel with
  | 0 => none
  | f + 1 =>
    match oracle attempt with
    | some v => some v
    | none => process_index_attempts oracle (attempt + 1) f

/-- The try block located at fmp_client.py lines 601-620, lexically inside
process_index and after its unconditional raise at line 599: batch-process
the six indices, fetch market breadth, and assemble the overview dict.  Its
except handler re-raises, which is the identity on the error case. -/
def process_index_dead_tail (env : OverviewEnv) : Except String JVal :=
  match batch_process indian_indices env.processIndexSem 2 with
  | .error e => .error e
  | .ok indices_data =>
    match env.breadth with
    | .error e => .error e
    | .ok breadth =>
      .ok (.obj [("indices", .arr indices_data), ("breadth", breadth)])

/-- process_index (fmp_client.py lines 517-620): run the three-attempt
retry loop; when every attempt fails, raise (line 599); the statements of
lines 601-620 follow that raise in the same suite, modelled by sequencing
them after the raised error with Except.bind. -/
def process_index (env : OverviewEnv) (index : IndexSpec) : Except String JVal :=
  match process_index_attempts (env.attempt index) 0 3 with
  | some v => .ok v
  | none =>
    (Except.error ("Failed to fetch data for " ++ index.name ++
        " after 3 attempts") : Except String Unit).bind
      (fun _ => process_index_dead_tail env)

/-- fetch_indian_market_overview (fmp_client.py lines 494-620): the body
logs, defines the local helper process_index, and ends; defining the helper
has no runtime effect, and with no statement after it the function returns
None. -/
def fetch_indian_market_overview (env : OverviewEnv) : Option JVal :=
  let _pi := fun index => process_index env index
  none

/-! ## Helper lemmas -/

/-- When the probe select raises and the raw CREATE TABLE query also raises,
ensure_cache_table_exists reports false, whatever the error messages say. -/
theorem ensure_false_of_down (s : Store) (h1 : s.failSelect.isSome)
    (h4 : s.failExec.isSome) : ensure_cache_table_exists s = false := by
  obtain ⟨e1, he1⟩ := Option.isSome_iff_exists.mp h1
  obtain ⟨e4, he4⟩ := Option.isSome_iff_exists.mp h4
  unfold ensure_cache_table_exists Store.selectProbe Store.execQuery
  rw [he1, he4]
  cases errSaysMissing e1 <;> simp

/-- When the probe select succeeds, ensure_cache_table_exists reports true. -/
theorem ensure_true_of_up (s : Store) (h : s.failSelect = none) :
    ensure_cache_table_exists s = true := by
  unfold ensure_cache_table_exists Store.selectProbe
  rw [h]

/-- A fully failing store makes every single Cache Manager operation return
its fail-closed result and leave the store unchanged. -/
theorem runOp_down (s : Store) (h1 : s.failSelect.isSome) (h4 : s.failExec.isSome)
    (op : CacheOp) : runOp s op = (failClosedResult op, s) := by
  have he := ensure_false_of_down s h1 h4
  cases op <;>
    simp [runOp, get_cached_data, set_cached_data, delete_cached_data,
      failClosedResult, he]

end FinPath

namespace FinPath

/-! ## Claim theorems -/

/-- C4: fetch_indian_market_overview returns None on every call: the outer
body only defines the helper and returns nothing, and the batch-process /
breadth / assembly statements sit inside process_index after its
unconditional raise, so process_index always resolves from its retry loop
alone (value or exhausted-retries error) and the dead tail never
contributes, whatever the environment. -/
theorem fetch_indian_market_overview_returns_none :
    (∀ env : OverviewEnv, fetch_indian_market_overview env = none) ∧
    (∀ (env : OverviewEnv) (index : IndexSpec),
      process_index env index =
        match process_index_attempts (env.attempt index) 0 3 with
        | some v => .ok v
        | none => .error ("Failed to fetch data for " ++ index.name ++
            " after 3 attempts")) := by
  constructor
  · intro env; rfl
  · intro env index
    unfold process_index
    cases process_index_attempts (env.attempt index) 0 3 <;> rfl

/-- C10: the per-call ttl argument of set_cached_data is accepted but never
persisted and has no effect: two writes differing only in the ttl argument
produce identical return values and stored states, and the staleness
decision of any later get_cached_data (which consults only the global TTL
passed to it) is therefore identical as well. -/
theorem set_ttl_argument_has_no_effect :
    ∀ (s : Store) (k : String) (v : JVal) (t1 t2 : Option Int) (now : Int),
      set_cached_data s k v t1 now = set_cached_data s k v t2 now ∧
      ∀ (q : String) (nowR gttl : Int),
        get_cached_data (set_cached_data s k v t1 now).2 q nowR gttl =
          get_cached_data (set_cached_data s k v t2 now).2 q nowR gttl := by
  intro s k v t1 t2 now
  exact ⟨rfl, fun q nowR gttl => rfl⟩

/-- C2: if the backing store raises on every call, then over any sequence of
Cache Manager operations every get returns absent and every set and delete
returns false, the store state is untouched, and no exception escapes (the
run function is total and returns plain results). -/
theorem store_failure_isolation (s : Store)
    (h1 : s.failSelect.isSome) (h2 : s.failInsert.isSome)
    (h3 : s.failDelete.isSome) (h4 : s.failExec.isSome) :
    ∀ ops : List CacheOp, runOps s ops = (ops.map failClosedResult, s) := by
  intro ops
  induction ops with
  | nil => rfl
  | cons op rest ih =>
    simp [runOps, runOp_down s h1 h4 op, ih]

/-- gatherE over a never-raising per-item function collects exactly the map,
in input order. -/
theorem gatherE_ok {α β : Type} (f : α → β) (l : List α) :
    gatherE (fun x => Except.ok (f x)) l = .ok (l.map f) := by
  induction l with
  | nil => rfl
  | cons x xs ih => simp [gatherE, ih]

/-- The batch loop started at index i over a never-raising per-item function
returns the map of the dropped suffix, whatever the batch size. -/
theorem batch_process_go_ok {α β : Type} (items : List α) (f : α → β)
    (batch_size : Nat) (hbs : 0 < batch_size) :
    ∀ n i, items.length - i ≤ n →
      batch_process_go items (fun x => Except.ok (f x)) batch_size i =
        .ok ((items.drop i).map f) := by
  intro n
  induction n with
  | zero =>
    intro i hi
    rw [batch_process_go, dif_neg (by omega), List.drop_eq_nil_of_le (by omega)]
    rfl
  | succ n ih =>
    intro i hi
    by_cases hlt : i < items.length
    · rw [batch_process_go, dif_pos ⟨hbs, hlt⟩, gatherE_ok,
        ih (i + batch_size) (by omega)]
      have hsplit : (items.drop i).take batch_size ++ items.drop (i + batch_size) =
          items.drop i := by
        have h1 : items.drop (i + batch_size) = (items.drop i).drop batch_size := by
          rw [List.drop_drop, Nat.add_comm i batch_size]
        rw [h1, List.take_append_drop]
      show Except.ok (((items.drop i).take batch_size).map f ++
          (items.drop (i + batch_size)).map f) =
        Except.ok ((items.drop i).map f)
      rw [← List.map_append, hsplit]
    · rw [batch_process_go, dif_neg (by omega), List.drop_eq_nil_of_le (by omega)]
      rfl

/-- C5: batch_process applied to a list of items and a per-item function
returns exactly the per-item results in input order, for every positive
batch size; batch boundaries are not observable in the output. -/
theorem batch_process_preserves_order {α β : Type} (items : List α) (f : α → β)
    (batch_size : Nat) (hbs : 0 < batch_size) :
    batch_process items (fun x => Except.ok (f x)) batch_size =
      .ok (items.map f) := by
  have h := batch_process_go_ok items f batch_size hbs items.length 0 (by omega)
  simpa using h

/-- Witness for C5 at a concrete five-element list with batch size 2. -/
theorem batch_process_preserves_order_witness :
    0 < 2 ∧
    batch_process [10, 20, 30, 40, 50] (fun x : Nat => Except.ok (x + 1)) 2 =
      Except.ok [11, 21, 31, 41, 51] :=
  ⟨by decide, batch_process_preserves_order [10, 20, 30, 40, 50] (fun x => x + 1) 2 (by decide)⟩

/-- The retry loop makes at most remaining upstream calls. -/
theorem perform_yahoo_go_count_le (calls : Nat → CallResult) :
    ∀ remaining attempt, (perform_yahoo_go calls attempt remaining).2 ≤ remaining := by
  intro remaining
  induction remaining with
  | zero => intro a; simp [perform_yahoo_go]
  | succ r ih =>
    intro a
    simp only [perform_yahoo_go]
    cases calls a with
    | ok v => simp
    | exn msg =>
      dsimp only
      by_cases hr : isRateLimitMsg msg = true
      · rw [if_pos hr]
        have := ih (a + 1)
        omega
      · rw [if_neg hr]
        by_cases ha : a < max_retries - 1
        · rw [if_pos ha]
          have := ih (a + 1)
          omega
        · rw [if_neg ha]
          simp

/-- When every attempt in range raises a rate-limit error, the retry loop
uses all remaining attempts and ends with the exhausted-retries error. -/
theorem perform_yahoo_go_all_rate (calls : Nat → CallResult) :
    ∀ remaining attempt,
      (∀ n, attempt ≤ n → n < attempt + remaining →
        ∃ m, calls n = .exn m ∧ isRateLimitMsg m = true) →
      perform_yahoo_go calls attempt remaining =
        (.error .exhaustedRateLimit, remaining) := by
  intro remaining
  induction remaining with
  | zero => intro a _; rfl
  | succ r ih =>
    intro a h
    obtain ⟨m, hm, hrate⟩ := h a (Nat.le_refl a) (by omega)
    simp only [perform_yahoo_go, hm, hrate, if_true]
    rw [ih (a + 1) (fun n h1 h2 => h n (by omega) (by omega))]

/-- When the loop reaches the final attempt with a non-rate-limit error,
that error is re-raised. -/
theorem perform_yahoo_go_last_other (calls : Nat → CallResult) (msg : String)
    (hmsg : isRateLimitMsg msg = false) (h4 : calls 4 = .exn msg) :
    ∀ remaining attempt, attempt + remaining = 5 → 0 < remaining →
      (∀ n, attempt ≤ n → n < 4 → ∀ v, calls n ≠ .ok v) →
      (perform_yahoo_go calls attempt remaining).1 = .error (.fromCall msg) := by
  intro remaining
  induction remaining with
  | zero => intro a _ h0 _; omega
  | succ r ih =>
    intro a ha _ hnok
    by_cases hra : r = 0
    · subst hra
      have ha4 : a = 4 := by omega
      subst ha4
      simp only [perform_yahoo_go, h4, hmsg, if_false]
      have hnlt : ¬ (4 < max_retries - 1) := by simp [max_retries]
      simp [hnlt]
    · have hlt : a < 4 := by omega
      cases hc : calls a with
      | ok v => exact absurd hc (hnok a (Nat.le_refl a) hlt v)
      | exn m =>
        have htail := ih (a + 1) (by omega) (by omega)
          (fun n h1 h2 v => hnok n (by omega) h2 v)
        simp only [perform_yahoo_go, hc]
        by_cases hr : isRateLimitMsg m
        · simp only [hr, if_true]
          exact htail
        · have halt : a < max_retries - 1 := by simp [max_retries]; omega
          simp only [hr, if_false, halt, if_true]
          exact htail

/-- C6: every perform_yahoo_request invokes the wrapped upstream at most
max_retries = 5 times; when all five attempts fail with a rate-limit
signal, the distinguished exhausted-retries error is raised after exactly
five upstream calls; and when the fifth attempt fails with a non-rate-limit
error, that error itself is re-raised instead of retrying further. -/
theorem perform_yahoo_request_retry_cap (calls : Nat → CallResult) :
    (perform_yahoo_request calls).2 ≤ 5 ∧
    ((∀ n, n < 5 → ∃ m, calls n = .exn m ∧ isRateLimitMsg m = true) →
      perform_yahoo_request calls = (.error .exhaustedRateLimit, 5)) ∧
    (∀ msg, isRateLimitMsg msg = false → calls 4 = .exn msg →
      (∀ n, n < 4 → ∀ v, calls n ≠ .ok v) →
      (perform_yahoo_request calls).1 = .error (.fromCall msg)) := by
  refine ⟨perform_yahoo_go_count_le calls 5 0, ?_, ?_⟩
  · intro h
    exact perform_yahoo_go_all_rate calls 5 0 (fun n _ h2 => h n (by omega))
  · intro msg hmsg h4 hnok
    exact perform_yahoo_go_last_other calls msg hmsg h4 5 0 (by omega) (by omega)
      (fun n _ h2 v => hnok n h2 v)

/-- Witness for C6: a call that always raises an HTTP 429 error exhausts
exactly five attempts, and a call that raises a plain timeout on every
attempt has its final error re-raised. -/
theorem perform_yahoo_request_retry_cap_witness :
    (isRateLimitMsg "HTTP Error 429" = true ∧
      perform_yahoo_request (fun _ => CallResult.exn "HTTP Error 429") =
        (.error .exhaustedRateLimit, 5)) ∧
    (isRateLimitMsg "timeout" = false ∧
      (perform_yahoo_request (fun _ => CallResult.exn "timeout")).1 =
        .error (.fromCall "timeout")) := by
  refine ⟨⟨by decide, ?_⟩, by decide, ?_⟩
  · exact (perform_yahoo_request_retry_cap
      (fun _ => CallResult.exn "HTTP Error 429")).2.1
      (fun n _ => ⟨"HTTP Error 429", rfl, by decide⟩)
  · exact (perform_yahoo_request_retry_cap (fun _ => CallResult.exn "timeout")).2.2
      "timeout" (by decide) rfl (fun n _ v h => by cases h)

/-- C9: the backoff delay base_delay * 2 ^ attempt + jitter is
non-decreasing in the attempt number once the jitter term is ignored, the
jitter term perturbs it by less than 0.5 seconds, and rate-limited retrying
makes exactly max_retries = 5 upstream calls before stopping. -/
theorem backoff_monotone_and_stops :
    (∀ n : Nat, backoff_delay n 0 ≤ backoff_delay (n + 1) 0) ∧
    (∀ (n : Nat) (jitter : ℚ), 0 ≤ jitter → jitter < 1 / 2 →
      backoff_delay n 0 ≤ backoff_delay n jitter ∧
      backoff_delay n jitter < backoff_delay n 0 + 1 / 2) ∧
    (∀ calls : Nat → CallResult,
      (∀ n, n < 5 → ∃ m, calls n = .exn m ∧ isRateLimitMsg m = true) →
      (perform_yahoo_request calls).2 = 5) := by
  refine ⟨?_, ?_, ?_⟩
  · intro n
    unfold backoff_delay base_delay
    have hpow : (2 : ℚ) ^ n ≤ 2 ^ (n + 1) := by
      exact pow_le_pow_right₀ (a := (2 : ℚ)) (by norm_num) (Nat.le_succ n)
    linarith
  · intro n jitter h0 h12
    unfold backoff_delay
    constructor <;> linarith
  · intro calls h
    have := perform_yahoo_go_all_rate calls 5 0 (fun n _ h2 => h n (by omega))
    unfold perform_yahoo_request
    rw [show max_retries = 5 from rfl, this]

/-- Witness for C9 at attempt 2, jitter 1/4, and an always-rate-limited
call. -/
theorem backoff_monotone_and_stops_witness :
    (backoff_delay 2 0 ≤ backoff_delay 3 0) ∧
    ((0 : ℚ) ≤ 1 / 4 ∧ (1 : ℚ) / 4 < 1 / 2 ∧
      backoff_delay 2 0 ≤ backoff_delay 2 (1 / 4)) ∧
    (perform_yahoo_request (fun _ => CallResult.exn "429 Client Error")).2 = 5 := by
  refine ⟨backoff_monotone_and_stops.1 2,
    ⟨by norm_num, by norm_num, ?_⟩, ?_⟩
  · exact (backoff_monotone_and_stops.2.1 2 (1 / 4) (by norm_num) (by norm_num)).1
  · exact backoff_monotone_and_stops.2.2 (fun _ => CallResult.exn "429 Client Error")
      (fun n _ => ⟨"429 Client Error", rfl, by decide⟩)

/-- The window contents after check_rate_limit are exactly the pruned prior
contents, in both branches of the capacity check. -/
theorem check_rate_limit_timestamps (prev : List ℚ) (current_time : ℚ) :
    (check_rate_limit prev current_time).timestamps =
      prev.filter (fun ts => current_time - ts < YAHOO_RATE_LIMIT_WINDOW) := by
  simp only [check_rate_limit]
  split <;> rfl

/-- C7: after check_rate_limit runs, the rate-limit window holds no
timestamp older than now minus the 60-second window (every retained
timestamp is strictly newer), and the capacity decision (can_proceed and
wait_time) is a function of the pruned contents alone: two prior windows
with equal pruned contents yield the same decision. -/
theorem check_rate_limit_prunes_window :
    (∀ (prev : List ℚ) (current_time ts : ℚ),
      ts ∈ (check_rate_limit prev current_time).timestamps →
      current_time - 60 < ts) ∧
    (∀ (p1 p2 : List ℚ) (current_time : ℚ),
      p1.filter (fun ts => current_time - ts < YAHOO_RATE_LIMIT_WINDOW) =
        p2.filter (fun ts => current_time - ts < YAHOO_RATE_LIMIT_WINDOW) →
      (check_rate_limit p1 current_time).can_proceed =
        (check_rate_limit p2 current_time).can_proceed ∧
      (check_rate_limit p1 current_time).wait_time =
        (check_rate_limit p2 current_time).wait_time) := by
  constructor
  · intro prev current_time ts hts
    rw [check_rate_limit_timestamps] at hts
    have h := List.of_mem_filter hts
    have h2 : current_time - ts < YAHOO_RATE_LIMIT_WINDOW := of_decide_eq_true h
    have h60 : YAHOO_RATE_LIMIT_WINDOW = 60 := rfl
    rw [h60] at h2
    linarith
  · intro p1 p2 current_time h
    unfold check_rate_limit
    rw [h]
    exact ⟨rfl, rfl⟩

/-- Witness for C7: a window holding one fresh and one ancient timestamp is
pruned to the fresh one, and two priors with equal pruned contents agree on
the decision. -/
theorem check_rate_limit_prunes_window_witness :
    ((5 : ℚ) ∈ (check_rate_limit [5, -100] 60).timestamps ∧
      (60 : ℚ) - 60 < 5) ∧
    ([(5 : ℚ), -100].filter (fun ts => (60 : ℚ) - ts < YAHOO_RATE_LIMIT_WINDOW) =
        [(5 : ℚ), -200].filter (fun ts => (60 : ℚ) - ts < YAHOO_RATE_LIMIT_WINDOW) ∧
      (check_rate_limit [(5 : ℚ), -100] 60).can_proceed =
        (check_rate_limit [(5 : ℚ), -200] 60).can_proceed) := by
  have hf1 : [(5 : ℚ), -100].filter
      (fun ts => (60 : ℚ) - ts < YAHOO_RATE_LIMIT_WINDOW) = [(5 : ℚ)] := by
    norm_num [YAHOO_RATE_LIMIT_WINDOW]
  have hf2 : [(5 : ℚ), -200].filter
      (fun ts => (60 : ℚ) - ts < YAHOO_RATE_LIMIT_WINDOW) = [(5 : ℚ)] := by
    norm_num [YAHOO_RATE_LIMIT_WINDOW]
  have hmem : (5 : ℚ) ∈ (check_rate_limit [5, -100] 60).timestamps := by
    rw [check_rate_limit_timestamps, hf1]
    exact List.mem_singleton.mpr rfl
  refine ⟨⟨hmem, ?_⟩, hf1.trans hf2.symm, ?_⟩
  · exact check_rate_limit_prunes_window.1 [5, -100] 60 5 hmem
  · exact (check_rate_limit_prunes_window.2 [5, -100] [5, -200] 60
      (hf1.trans hf2.symm)).1

/-- C1: with the store reachable, get_cached_data returns the stored value
when the age of the entry found for the key is strictly below the global
TTL (leaving the store unchanged); when the age is at least the TTL it
returns absent and best-effort deletes the entry, swallowing a failing
delete; and for an absent key it returns absent. -/
theorem get_cached_data_ttl (s : Store) (k : String) (now ttl : Int)
    (hsel : s.failSelect = none) :
    (∀ v t, (s.table.filter (fun r => r.key == k)).head? = some ⟨k, v, some t⟩ →
      ((now - t < ttl → get_cached_data s k now ttl = (some v, s)) ∧
       (ttl ≤ now - t →
         (get_cached_data s k now ttl).1 = none ∧
         (s.failDelete = none →
           (get_cached_data s k now ttl).2 =
             { s with table := s.table.filter (fun r => r.key != k) }) ∧
         (∀ e, s.failDelete = some e →
           (get_cached_data s k now ttl).2 = s)))) ∧
    (s.table.filter (fun r => r.key == k) = [] →
      get_cached_data s k now ttl = (none, s)) := by
  have hens := ensure_true_of_up s hsel
  constructor
  · intro v t hhead
    obtain ⟨rest, hf⟩ : ∃ rest,
        s.table.filter (fun r => r.key == k) = ⟨k, v, some t⟩ :: rest := by
      cases hc : s.table.filter (fun r => r.key == k) with
      | nil => rw [hc] at hhead; cases hhead
      | cons a l =>
        rw [hc] at hhead
        simp only [List.head?_cons, Option.some_inj] at hhead
        exact ⟨l, by rw [hhead]⟩
    have hget : get_cached_data s k now ttl =
        if now - t < ttl then (some v, s)
        else
          match s.deleteKey k with
          | .ok s2 => (none, s2)
          | .error _ => (none, s) := by
      simp [get_cached_data, Store.selectKey, hens, hsel, hf]
    constructor
    · intro hfresh
      rw [hget, if_pos hfresh]
    · intro hstale
      rw [hget, if_neg (by omega)]
      refine ⟨?_, ?_, ?_⟩
      · cases hd : s.deleteKey k <;> simp
      · intro hdel
        simp [Store.deleteKey, hdel]
      · intro e hdel
        simp [Store.deleteKey, hdel]
  · intro hmiss
    simp [get_cached_data, Store.selectKey, hens, hsel, hmiss]

/-- Witness for C1: a one-entry store serves the fresh entry unchanged, and
drops it once the age reaches the TTL. -/
theorem get_cached_data_ttl_witness :
    (((Store.mk [⟨"k", JVal.num 7, some 100⟩] none none none none).table.filter
        (fun r => r.key == "k")).head? = some ⟨"k", JVal.num 7, some 100⟩ ∧
      (200 : Int) - 100 < 3600 ∧
      get_cached_data (Store.mk [⟨"k", JVal.num 7, some 100⟩] none none none none)
          "k" 200 3600 =
        (some (JVal.num 7),
          Store.mk [⟨"k", JVal.num 7, some 100⟩] none none none none)) ∧
    ((3600 : Int) ≤ 5000 - 100 ∧
      (get_cached_data (Store.mk [⟨"k", JVal.num 7, some 100⟩] none none none none)
          "k" 5000 3600).1 = none) := by
  refine ⟨⟨rfl, by norm_num, ?_⟩, by norm_num, ?_⟩
  · exact (((get_cached_data_ttl
      (Store.mk [⟨"k", JVal.num 7, some 100⟩] none none none none)
      "k" 200 3600 rfl).1 (JVal.num 7) 100 rfl).1) (by norm_num)
  · exact ((((get_cached_data_ttl
      (Store.mk [⟨"k", JVal.num 7, some 100⟩] none none none none)
      "k" 5000 3600 rfl).1 (JVal.num 7) 100 rfl).2) (by norm_num)).1

/-- Rows surviving a delete of key k never match key k again. -/
theorem filter_ne_then_eq (l : Table) (k : String) :
    (l.filter (fun r => r.key != k)).filter (fun r => r.key == k) = [] := by
  induction l with
  | nil => rfl
  | cons a t ih =>
    by_cases ha : a.key = k
    · simp [List.filter_cons, ha, ih]
    · simp [List.filter_cons, ha, ih]

/-- Deleting key k then appending a fresh row for k leaves exactly that row
matching k. -/
theorem filter_ne_append_row (l : Table) (k : String) (row : Row)
    (hk : row.key = k) :
    ((l.filter (fun r => r.key != k)) ++ [row]).filter (fun r => r.key == k) =
      [row] := by
  rw [List.filter_append, filter_ne_then_eq]
  simp [List.filter_cons, hk]

/-- Deleting key k then appending a row for k does not disturb the rows of
any other key. -/
theorem filter_other_key (l : Table) (k q : String) (hkq : q ≠ k) (row : Row)
    (hk : row.key = k) :
    ((l.filter (fun r => r.key != k)) ++ [row]).filter (fun r => r.key == q) =
      l.filter (fun r => r.key == q) := by
  rw [List.filter_append]
  have h2 : [row].filter (fun r => r.key == q) = [] := by
    simp [List.filter_cons, hk]
    exact fun h => absurd h.symm hkq
  rw [h2, List.append_nil]
  induction l with
  | nil => rfl
  | cons a t ih =>
    by_cases ha : a.key = k
    · have hqk : k ≠ q := fun h => absurd h.symm hkq
      simp [List.filter_cons, ha, hqk, ih]
    · simp [List.filter_cons, ha, ih]

/-- Deleting key k is idempotent across an intervening write of key k. -/
theorem filter_ne_append_ne (l : Table) (k : String) (row : Row)
    (hk : row.key = k) :
    ((l.filter (fun r => r.key != k)) ++ [row]).filter (fun r => r.key != k) =
      l.filter (fun r => r.key != k) := by
  rw [List.filter_append]
  have h2 : [row].filter (fun r => r.key != k) = [] := by
    simp [List.filter_cons, hk]
  rw [h2, List.append_nil]
  induction l with
  | nil => rfl
  | cons a t ih =>
    by_cases ha : a.key = k
    · simp [List.filter_cons, ha, ih]
    · simp [List.filter_cons, ha, ih]

/-- With the store reachable, set_cached_data deletes the rows of the key
and appends one fresh row, returning true. -/
theorem set_cached_data_ok (s : Store) (k : String) (v : JVal) (t : Option Int)
    (now : Int) (hsel : s.failSelect = none) (hdel : s.failDelete = none)
    (hins : s.failInsert = none) :
    set_cached_data s k v t now =
      (true, { s with table :=
        s.table.filter (fun r => r.key != k) ++ [⟨k, v, some now⟩] }) := by
  have hens := ensure_true_of_up s hsel
  simp [set_cached_data, hens, Store.deleteKey, hdel, Store.insertRow, hins]

/-- C8: with the store reachable, writing key k twice leaves exactly one
stored row for k, holding the second value; every write replaces rather
than duplicates (a single write also leaves exactly one row for its key),
and rows of other keys are untouched. -/
theorem set_upsert (s : Store) (k : String) (v1 v2 : JVal) (t1 t2 : Option Int)
    (n1 n2 : Int) (hsel : s.failSelect = none) (hdel : s.failDelete = none)
    (hins : s.failInsert = none) :
    (((set_cached_data (set_cached_data s k v1 t1 n1).2 k v2 t2 n2).2).table.filter
        (fun r => r.key == k) = [⟨k, v2, some n2⟩]) ∧
    (∀ q, q ≠ k →
      ((set_cached_data (set_cached_data s k v1 t1 n1).2 k v2 t2 n2).2).table.filter
          (fun r => r.key == q) =
        s.table.filter (fun r => r.key == q)) ∧
    (∀ (s' : Store) (v : JVal) (t : Option Int) (n : Int),
      s'.failSelect = none → s'.failDelete = none → s'.failInsert = none →
      ((set_cached_data s' k v t n).2).table.filter (fun r => r.key == k) =
        [⟨k, v, some n⟩]) := by
  have h1 := set_cached_data_ok s k v1 t1 n1 hsel hdel hins
  have hs1table : ((set_cached_data s k v1 t1 n1).2).table =
      s.table.filter (fun r => r.key != k) ++ [⟨k, v1, some n1⟩] := by
    rw [h1]
  have h2 := set_cached_data_ok (set_cached_data s k v1 t1 n1).2 k v2 t2 n2
    (by rw [h1]; exact hsel) (by rw [h1]; exact hdel) (by rw [h1]; exact hins)
  have hs2table : ((set_cached_data (set_cached_data s k v1 t1 n1).2 k v2 t2 n2).2).table =
      s.table.filter (fun r => r.key != k) ++ [⟨k, v2, some n2⟩] := by
    rw [h2]
    show ((set_cached_data s k v1 t1 n1).2).table.filter (fun r => r.key != k) ++ _ = _
    rw [hs1table, filter_ne_append_ne s.table k ⟨k, v1, some n1⟩ rfl]
  refine ⟨?_, ?_, ?_⟩
  · rw [hs2table]
    exact filter_ne_append_row _ _ _ rfl
  · intro q hq
    rw [hs2table]
    exact filter_other_key _ _ _ hq _ rfl
  · intro s' v t n hsel' hdel' hins'
    rw [set_cached_data_ok s' k v t n hsel' hdel' hins']
    exact filter_ne_append_row _ _ _ rfl

/-- Witness for C8: two writes of the same key on a store already holding
that key and another key. -/
theorem set_upsert_witness :
    (Store.mk [⟨"k", JVal.null, some 0⟩, ⟨"other", JVal.num 9, some 0⟩]
        none none none none).failSelect = none ∧
    ((set_cached_data
        (set_cached_data
          (Store.mk [⟨"k", JVal.null, some 0⟩, ⟨"other", JVal.num 9, some 0⟩]
            none none none none)
          "k" (JVal.num 1) none 10).2
        "k" (JVal.num 2) (some 900) 20).2).table.filter
      (fun r => r.key == "k") = [⟨"k", JVal.num 2, some 20⟩] := by
  refine ⟨rfl, ?_⟩
  exact (set_upsert
    (Store.mk [⟨"k", JVal.null, some 0⟩, ⟨"other", JVal.num 9, some 0⟩]
      none none none none)
    "k" (JVal.num 1) (JVal.num 2) none (some 900) 10 20 rfl rfl rfl).1

/-- C3 counterexample: when the primary FMP call raises (here a transport
error) while the yfinance secondary would succeed, fetch_stock_data does
not invoke the secondary and returns the empty dict instead of the
secondary result or a propagated error — refuting the claim that a raising
primary triggers the fallback and that a failure of both propagates the
last error. -/
theorem fetch_stock_data_counterexample :
    (fetch_stock_data "AAPL" none 0
        (StockFetchEnv.mk (.error "connection reset by peer")
          (.ok [("currentPrice", JVal.num 100)]))).yfinance_called = false ∧
    (fetch_stock_data "AAPL" none 0
        (StockFetchEnv.mk (.error "connection reset by peer")
          (.ok [("currentPrice", JVal.num 100)]))).value = emptyDict :=
  ⟨rfl, rfl⟩

/-- C3 amended: the yfinance fallback is invoked exactly when the primary
call completes with a non-200 status or with a 200 response whose parsed
body is empty, and then its successful result is returned; when the primary
call itself raises, or a 200 body fails to parse, the outer except handler
returns the empty dict without invoking the fallback; a 200 response with a
non-empty parsed body also never invokes the fallback (it serves the built
quote, or the empty dict when the construction raises); when the fallback
itself raises, the empty dict is returned; no error is ever propagated to
the caller. -/
theorem fetch_stock_data_fallback (symbol : String) (now : Int)
    (env : StockFetchEnv) :
    (∀ status bodyRes, env.primary = .ok (status, bodyRes) →
      ((status ≠ 200 →
        fetch_stock_data symbol none now env =
          fetch_yf_fallback symbol none now env) ∧
       (status = 200 → bodyRes = .ok [] →
        fetch_stock_data symbol none now env =
          fetch_yf_fallback symbol none now env))) ∧
    (∀ msg, env.primary = .error msg →
      fetch_stock_data symbol none now env =
        ⟨emptyDict, false, none⟩) ∧
    (∀ msg, env.primary = .ok (200, .error msg) →
      fetch_stock_data symbol none now env =
        ⟨emptyDict, false, none⟩) ∧
    (∀ quote rest, env.primary = .ok (200, .ok (quote :: rest)) →
      ((fetch_stock_data symbol none now env).yfinance_called = false ∧
       (∀ r, build_fmp_result symbol quote now = .ok r →
         fetch_stock_data symbol none now env = ⟨r, false, some (now, r)⟩) ∧
       (∀ e, build_fmp_result symbol quote now = .error e →
         fetch_stock_data symbol none now env = ⟨emptyDict, false, none⟩))) ∧
    (∀ info, env.yfinance = .ok info →
      fetch_yf_fallback symbol none now env =
        ⟨build_yf_result symbol info now, true,
          some (now, build_yf_result symbol info now)⟩) ∧
    (∀ msg, env.yfinance = .error msg →
      fetch_yf_fallback symbol none now env = ⟨emptyDict, true, none⟩) := by
  refine ⟨?_, ?_, ?_, ?_, ?_, ?_⟩
  · intro status bodyRes hp
    constructor
    · intro hst
      have hb : (status == 200) = false := by
        simp [hst]
      simp [fetch_stock_data, fetch_stock_data_go, hp, hb]
    · intro hst hbody
      subst hst
      simp [fetch_stock_data, fetch_stock_data_go, hp, hbody]
  · intro msg hp
    simp [fetch_stock_data, fetch_stock_data_go, hp]
  · intro msg hp
    simp [fetch_stock_data, fetch_stock_data_go, hp]
  · intro quote rest hp
    refine ⟨?_, ?_, ?_⟩
    · cases hb : build_fmp_result symbol quote now with
      | ok r => simp [fetch_stock_data, fetch_stock_data_go, hp, hb]
      | error e => simp [fetch_stock_data, fetch_stock_data_go, hp, hb]
    · intro r hb
      simp [fetch_stock_data, fetch_stock_data_go, hp, hb]
    · intro e hb
      simp [fetch_stock_data, fetch_stock_data_go, hp, hb]
  · intro info hyf
    simp [fetch_yf_fallback, hyf]
  · intro msg hyf
    simp [fetch_yf_fallback, hyf]

/-- Witness for the amended C3: a 500 primary response falls back to
yfinance and serves its result; a raising primary, a malformed 200 body,
and a 200 response with a non-empty body all leave yfinance uninvoked. -/
theorem fetch_stock_data_fallback_witness :
    ((StockFetchEnv.mk (.ok (500, .ok []))
        (.ok [("currentPrice", JVal.num 42)])).primary = .ok (500, .ok []) ∧
      (500 : Nat) ≠ 200 ∧
      fetch_stock_data "TCS.NS" none 0
          (StockFetchEnv.mk (.ok (500, .ok []))
            (.ok [("currentPrice", JVal.num 42)])) =
        fetch_yf_fallback "TCS.NS" none 0
          (StockFetchEnv.mk (.ok (500, .ok []))
            (.ok [("currentPrice", JVal.num 42)]))) ∧
    (fetch_stock_data "TCS.NS" none 0
        (StockFetchEnv.mk (.error "boom") (.ok [])) =
      ⟨emptyDict, false, none⟩) ∧
    (fetch_stock_data "TCS.NS" none 0
        (StockFetchEnv.mk (.ok (200, .error "invalid json")) (.ok [])) =
      ⟨emptyDict, false, none⟩) ∧
    ((fetch_stock_data "TCS.NS" none 0
        (StockFetchEnv.mk (.ok (200, .ok [JVal.obj [("price", JVal.num 10)]]))
          (.ok []))).yfinance_called = false) := by
  refine ⟨⟨rfl, by decide, ?_⟩, ?_, ?_, ?_⟩
  · exact ((fetch_stock_data_fallback "TCS.NS" 0
      (StockFetchEnv.mk (.ok (500, .ok []))
        (.ok [("currentPrice", JVal.num 42)]))).1 500 (.ok []) rfl).1
      (by decide)
  · exact (fetch_stock_data_fallback "TCS.NS" 0
      (StockFetchEnv.mk (.error "boom") (.ok []))).2.1 "boom" rfl
  · exact (fetch_stock_data_fallback "TCS.NS" 0
      (StockFetchEnv.mk (.ok (200, .error "invalid json")) (.ok []))).2.2.1
      "invalid json" rfl
  · exact ((fetch_stock_data_fallback "TCS.NS" 0
      (StockFetchEnv.mk (.ok (200, .ok [JVal.obj [("price", JVal.num 10)]]))
        (.ok []))).2.2.2.1 (JVal.obj [("price", JVal.num 10)]) [] rfl).1

/-- Witness for C2 at a concrete store and operation sequence. -/
theorem store_failure_isolation_witness :
    (Store.mk [] (some .serviceDown) (some .serviceDown) (some .serviceDown)
        (some .serviceDown)).failSelect.isSome = true ∧
    runOps (Store.mk [] (some .serviceDown) (some .serviceDown)
        (some .serviceDown) (some .serviceDown))
      [CacheOp.get "k" 100 3600, CacheOp.set "k" (JVal.num 1) none 100,
        CacheOp.del "k"] =
      ([CacheRes.got none, CacheRes.done false, CacheRes.done false],
        Store.mk [] (some .serviceDown) (some .serviceDown) (some .serviceDown)
          (some .serviceDown)) := by
  refine ⟨rfl, ?_⟩
  exact store_failure_isolation
    (Store.mk [] (some .serviceDown) (some .serviceDown) (some .serviceDown)
      (some .serviceDown)) rfl rfl rfl rfl
    [CacheOp.get "k" 100 3600, CacheOp.set "k" (JVal.num 1) none 100,
      CacheOp.del "k"]

end FinPath
